import Mathlib

/-!
Verification of the registration-processing core of the Conphere Streamlit app
(`app.py`): quantity extraction from free-text ticket strings, per-row Lunch/VIP
entitlement resolution, entity-type classification, buyer-grouped guest-ticket
distribution, and summary statistics.

Modelling conventions:
* a spreadsheet cell is `Option String`; `none` stands for a missing value
  (pandas `NaN`, i.e. `pd.isna` is true), `some s` for a present textual value
  (the result of Python's `str(value)` on the cell);
* Python string operations (`.lower()`, `.strip()`, substring `in`) are modelled
  on `List Char`; the data in scope is ASCII, where the Lean and Python
  operations agree;
* Python's regex `^(\d+)` is modelled as the leading run of ASCII decimal
  digits.
-/

namespace Conphere

/-- Python `a.startswith(b)`-style test on char lists: `leadMatch needle hay`
is true when `hay` begins with `needle`. -/
def leadMatch : List Char → List Char → Bool
  | [], _ => true
  | _ :: _, [] => false
  | a :: as, b :: bs => a == b && leadMatch as bs

/-- Python substring membership `needle in hay` on char lists. -/
def subSearch (needle : List Char) : List Char → Bool
  | [] => needle.isEmpty
  | c :: rest => leadMatch needle (c :: rest) || subSearch needle rest

/-- Python `needle in hay` for strings. -/
def strIn (needle hay : String) : Bool := subSearch needle.data hay.data

/-- Python `s.lower()` (ASCII). -/
def lowerChars (s : String) : List Char := s.data.map Char.toLower

/-- Leading-whitespace removal, one side of Python `str.strip()`. -/
def dropLeadWs : List Char → List Char
  | [] => []
  | c :: rest => if c.isWhitespace then dropLeadWs rest else c :: rest

/-- Python `s.strip()`: whitespace removed from both ends. -/
def stripChars (cs : List Char) : List Char :=
  (dropLeadWs (dropLeadWs cs).reverse).reverse

/-- The leading contiguous run of decimal digits of a char list
(the text matched by the regex `^(\d+)`, empty when there is no match). -/
def leadDigits : List Char → List Char
  | [] => []
  | c :: rest => if c.isDigit then c :: leadDigits rest else []

/-- Numeric value of a run of decimal digits (Python `int` on the matched
group). -/
def digitsToNat (ds : List Char) : Nat :=
  ds.foldl (fun acc c => acc * 10 + (c.toNat - 48)) 0

/-- `extract_quantity_from_string` from `app.py`: 0 on a missing (`pd.isna`)
or empty value; otherwise the integer formed by the leading digit run of
`str(value).strip()`, or 0 when no leading digit exists. -/
def extractQuantityFromString (value : Option String) : Nat :=
  match value with
  | none => 0
  | some s =>
    if s = "" then 0
    else
      match leadDigits (stripChars s.data) with
      | [] => 0
      | ds => digitsToNat ds

/-- Explicit negative marker for a Lunch column: lowercased text contains
`no lunch` (`app.py`, `check_lunch_status`). -/
def lunchNegative (s : String) : Bool :=
  subSearch "no lunch".data (lowerChars s)

/-- Positive indicator for a Lunch column: lowercased text contains `lunch`,
or the extracted quantity is positive (`app.py`, `check_lunch_status`). -/
def lunchPositive (s : String) : Bool :=
  subSearch "lunch".data (lowerChars s) ||
    decide (0 < extractQuantityFromString (some s))

/-- The column loop of `check_lunch_status`: the three lunch cells in priority
order; a missing cell is skipped, an explicit `no lunch` cell is skipped
(`continue`), a positive cell returns `LUNCH`, otherwise the loop falls
through to the empty string. -/
def checkLunchCells : List (Option String) → String
  | [] => ""
  | none :: rest => checkLunchCells rest
  | some s :: rest =>
    if lunchNegative s then checkLunchCells rest
    else if lunchPositive s then "LUNCH"
    else checkLunchCells rest

/-- Explicit negative marker for a VIP column: lowercased text contains the
four-character sequence `\x22no\x22` (a double-quoted `no`), from
`check_vip_status`. -/
def vipNegative (s : String) : Bool :=
  subSearch "\x22no\x22".data (lowerChars s)

/-- Positive indicator for a VIP column: lowercased text contains `yes`, or
the extracted quantity is positive (`app.py`, `check_vip_status`). -/
def vipPositive (s : String) : Bool :=
  subSearch "yes".data (lowerChars s) ||
    decide (0 < extractQuantityFromString (some s))

/-- The column loop of `check_vip_status`, structured like
`checkLunchCells`. -/
def checkVipCells : List (Option String) → String
  | [] => ""
  | none :: rest => checkVipCells rest
  | some s :: rest =>
    if vipNegative s then checkVipCells rest
    else if vipPositive s then "VIP"
    else checkVipCells rest

/-- One attendee row of the spreadsheet, restricted to the 11 required
columns (`required_columns` in `app.py`). -/
structure Row where
  buyerEmail : Option String
  attFirst : Option String
  attLast : Option String
  attEmail : Option String
  ticketType : Option String
  lunchIncluded : Option String
  guestLunchTicket : Option String
  purchaseLunch : Option String
  vipIncluded : Option String
  guestVipTicket : Option String
  purchaseVip : Option String
deriving DecidableEq, Repr

/-- `check_lunch_status(row)`: the lunch columns in their hard-coded priority
order `Lunch (Included)`, `Guest Lunch Ticket`, `Purchase Lunch`. -/
def checkLunchStatus (row : Row) : String :=
  checkLunchCells [row.lunchIncluded, row.guestLunchTicket, row.purchaseLunch]

/-- `check_vip_status(row)`: the VIP columns in their hard-coded priority
order `VIP Social (Included)`, `Guest VIP Social Ticket`,
`Purchase VIP Social`. -/
def checkVipStatus (row : Row) : String :=
  checkVipCells [row.vipIncluded, row.guestVipTicket, row.purchaseVip]

/-- `TICKET_TYPE_MAPPING` from `app.py`, as an association list in source
order. -/
def TICKET_TYPE_MAPPING : List (String × String) :=
  [("Full-Access Registration", "ATTENDEE"),
   ("Standard Registration", "ATTENDEE"),
   ("Student Registration", "ATTENDEE"),
   ("Entrepreneur Registration", "ATTENDEE"),
   ("Exhibitor Full-Access Registration", "EXHIBITOR"),
   ("Exhibitor Standard Registration", "EXHIBITOR"),
   ("Second Exhibitor", "EXHIBITOR"),
   ("Guest Full-Access Registration", "ATTENDEE"),
   ("Guest Standard Registration", "ATTENDEE"),
   ("Guest Registration with Lunch", "ATTENDEE"),
   ("Speaker", "SPEAKER"),
   ("Sponsor", "SPONSOR"),
   ("Volunteer", "VOLUNTEER"),
   ("Media Registration", "ATTENDEE"),
   ("Member Innovator Pass", "ATTENDEE"),
   ("Member Visionary Pass", "ATTENDEE"),
   ("Bronze Sponsorship", "SPONSOR"),
   ("Silver Sponsorship", "SPONSOR"),
   ("Gold Sponsorship", "SPONSOR"),
   ("Platinum Sponsorship", "SPONSOR")]

/-- `map_entity_type(ticket_type)`: `ATTENDEE` on a missing value, otherwise
the table lookup of `str(ticket_type).strip()` with default `ATTENDEE`. -/
def mapEntityType (ticketType : Option String) : String :=
  match ticketType with
  | none => "ATTENDEE"
  | some s => (TICKET_TYPE_MAPPING.lookup (String.mk (stripChars s.data))).getD "ATTENDEE"

/-- One output row built by `process_registration_data` (keys
`Attendee First Name`, `Attendee Last Name`, `Attendee Email`, `EntityType`,
`VIP`, `Lunch`). -/
structure OutputRow where
  attFirst : Option String
  attLast : Option String
  attEmail : Option String
  entityType : String
  vip : String
  lunch : String
deriving DecidableEq, Repr

/-- The body of the inner attendee loop of `process_registration_data`:
given the buyer group's guest quantities and the attendee's 0-based position
`idx` in the group, the guest pool wins when `idx` falls inside a positive
quantity (`guest_vip_qty > 0 and idx < guest_vip_qty`), otherwise the per-row
resolver decides. -/
def processAttendee (guestVipQty guestLunchQty idx : Nat) (r : Row) : OutputRow :=
  { attFirst := r.attFirst
    attLast := r.attLast
    attEmail := r.attEmail
    entityType := mapEntityType r.ticketType
    vip := if 0 < guestVipQty ∧ idx < guestVipQty then "VIP" else checkVipStatus r
    lunch := if 0 < guestLunchQty ∧ idx < guestLunchQty then "LUNCH" else checkLunchStatus r }

/-- Python's `enumerate` over the group rows, applying `processAttendee` at
each successive index. -/
def processFrom (guestVipQty guestLunchQty idx : Nat) : List Row → List OutputRow
  | [] => []
  | r :: rest =>
    processAttendee guestVipQty guestLunchQty idx r ::
      processFrom guestVipQty guestLunchQty (idx + 1) rest

/-- One iteration of the buyer-group loop of `process_registration_data`:
the guest quantities are extracted once from the group's first row
(`group.iloc[0]`), then every attendee of the group is processed in order. -/
def processGroup : List Row → List OutputRow
  | [] => []
  | first :: rest =>
    processFrom (extractQuantityFromString first.guestVipTicket)
      (extractQuantityFromString first.guestLunchTicket) 0 (first :: rest)

/-- The 11 `required_columns` of `process_registration_data`. -/
def requiredColumns : List String :=
  ["Buyer Email",
   "Attendee First Name",
   "Attendee Last Name",
   "Attendee Email",
   "Registration/Ticket Type",
   "Lunch (Included)",
   "Guest Lunch Ticket",
   "Purchase Lunch",
   "VIP Social (Included)",
   "Guest VIP Social Ticket",
   "Purchase VIP Social"]

/-- `[col for col in required_columns if col not in df.columns]` for a header
row `headers`. -/
def missingColumns (headers : List String) : List String :=
  requiredColumns.filter (fun c => !headers.contains c)

/-- The `dropna` subset check: a row is kept only when buyer email, attendee
email and attendee first/last name are all present. -/
def criticalComplete (r : Row) : Bool :=
  r.buyerEmail.isSome && r.attEmail.isSome && r.attFirst.isSome && r.attLast.isSome

/-- `df.dropna(subset=[...])` over the four critical columns. -/
def dropIncomplete (rows : List Row) : List Row :=
  rows.filter criticalComplete

/-- The grouping key of `df.groupby('Buyer Email')` (on kept rows the buyer
email is always present). -/
def buyerKey (r : Row) : String := r.buyerEmail.getD ""

/-- Insertion into a sorted key list, code-point order as in Python. -/
def insertKey (s : String) : List String → List String
  | [] => [s]
  | k :: rest => if s < k then s :: k :: rest else k :: insertKey s rest

/-- Sorting of the distinct group keys; pandas `groupby` iterates groups in
sorted key order. -/
def sortKeys : List String → List String
  | [] => []
  | k :: rest => insertKey k (sortKeys rest)

/-- The distinct buyer emails of the kept rows, in sorted order, as iterated
by `df.groupby('Buyer Email')`. -/
def buyerKeys (rows : List Row) : List String :=
  sortKeys ((rows.map buyerKey).eraseDups)

/-- The row-processing part of `process_registration_data` after the header
has been located: drop incomplete rows, group by buyer email (each group in
original row order), process each group, and concatenate the groups'
output rows. -/
def processRows (rows : List Row) : List OutputRow :=
  let kept := dropIncomplete rows
  ((buyerKeys kept).map
    (fun k => processGroup (kept.filter (fun r => buyerKey r == k)))).flatten

/-- `process_registration_data` including header detection: `h0` and `h2` are
the column sets obtained by reading the file with the header at row 1 and at
row 3 (0-indexed rows 0 and 2), `rows0`/`rows2` the corresponding data rows;
when neither candidate header contains all required columns the function
raises `ValueError` naming the columns missing from the second attempt. -/
def processRegistrationData (h0 : List String) (rows0 : List Row)
    (h2 : List String) (rows2 : List Row) : Except (List String) (List OutputRow) :=
  if missingColumns h0 = [] then .ok (processRows rows0)
  else if missingColumns h2 = [] then .ok (processRows rows2)
  else .error (missingColumns h2)

/-- `df["VIP"] == "VIP"` on an output row. -/
def vipTrue (r : OutputRow) : Bool := r.vip == "VIP"

/-- `df["Lunch"] == "LUNCH"` on an output row. -/
def lunchTrue (r : OutputRow) : Bool := r.lunch == "LUNCH"

/-- The numeric fields of `calculate_summary(df)`, as the association list of
keys the Python dict carries (the `entity_breakdown` key, whose value is a
nested dict, is modelled separately by `entityBreakdown`). -/
def calculateSummary (df : List OutputRow) : List (String × Nat) :=
  [("total_attendees", df.length),
   ("vip_count", (df.filter vipTrue).length),
   ("lunch_count", (df.filter lunchTrue).length),
   ("vip_and_lunch_count", (df.filter (fun r => vipTrue r && lunchTrue r)).length),
   ("vip_only", (df.filter (fun r => vipTrue r && !lunchTrue r)).length),
   ("lunch_only", (df.filter (fun r => !vipTrue r && lunchTrue r)).length)]

/-- `df['EntityType'].value_counts().to_dict()`: the count of rows per entity
type, one entry per distinct entity type occurring in `df` (`value_counts`
orders the dict by descending count; the order is immaterial here and the
entries are listed by first occurrence). -/
def entityBreakdown (df : List OutputRow) : List (String × Nat) :=
  ((df.map (fun r => r.entityType)).dedup).map
    (fun t => (t, (df.filter (fun r => r.entityType == t)).length))

/-- The list of Lunch flags of a processed group, in output order. -/
def lunchFlags (out : List OutputRow) : List String :=
  out.map (fun r => r.lunch)

/-- Modelled from the spec: the count of retained rows with (VIP OR Lunch)
true, the quantity §4.5 says the spreadsheet-shape summary carries as an
explicit field. -/
def vipOrLunchCount (df : List OutputRow) : Nat :=
  (df.filter (fun r => vipTrue r || lunchTrue r)).length

/-- A row with all critical fields present and every signal column empty. -/
def blankRow : Row :=
  { buyerEmail := some "buyer@x.com"
    attFirst := some "Ann"
    attLast := some "Lee"
    attEmail := some "ann@x.com"
    ticketType := none
    lunchIncluded := none
    guestLunchTicket := none
    purchaseLunch := none
    vipIncluded := none
    guestVipTicket := none
    purchaseVip := none }

/-- First row of the 3-attendee buyer group of C1: the buyer's guest lunch
pool is `2 \x27Lunch\x27 - Not Picked Up`, quantity 2. -/
def c1r0 : Row :=
  { blankRow with guestLunchTicket := some "2 \x27Lunch\x27 - Not Picked Up" }

/-- Second row of the C1 group, no signals of its own. -/
def c1r1 : Row :=
  { blankRow with attEmail := some "bob@x.com" }

/-- Third row of the C1 group: its own `Lunch (Included)` column is the
positive value `Lunch`. -/
def c1r2 : Row :=
  { blankRow with attEmail := some "cid@x.com", lunchIncluded := some "Lunch" }

/-- Row for the C2 counterexample: highest-priority lunch column is the
explicit negative `No Lunch`, the next one a positive quantity string. -/
def c2row : Row :=
  { blankRow with
      lunchIncluded := some "No Lunch"
      guestLunchTicket := some "1 \x27Lunch\x27 - Not Picked Up" }

/-- A row missing its buyer email, dropped by the `dropna` step. -/
def incompleteRow : Row :=
  { blankRow with buyerEmail := none }

/-- Output row with both capabilities set. -/
def outBoth : OutputRow :=
  { attFirst := some "A", attLast := some "L", attEmail := some "a@x.com",
    entityType := "ATTENDEE", vip := "VIP", lunch := "LUNCH" }

/-- Output row with only VIP set. -/
def outVipOnly : OutputRow :=
  { outBoth with attEmail := some "b@x.com", lunch := "" }

/-- Output row with only Lunch set. -/
def outLunchOnly : OutputRow :=
  { outBoth with attEmail := some "c@x.com", vip := "" }

/-- Output row with neither capability. -/
def outNeither : OutputRow :=
  { outBoth with attEmail := some "d@x.com", vip := "", lunch := "" }

/-- Concrete processed roster used to probe the summary fields: one row of
each VIP/Lunch combination. -/
def rosterC9 : List OutputRow :=
  [outBoth, outVipOnly, outLunchOnly, outNeither]

/-- Concrete processed roster for the summary arithmetic identities. -/
def rosterC10 : List OutputRow :=
  [outBoth, outVipOnly]

/-- The output row produced by processing `blankRow` alone. -/
def outBlank : OutputRow :=
  { attFirst := some "Ann", attLast := some "Lee", attEmail := some "ann@x.com",
    entityType := "ATTENDEE", vip := "", lunch := "" }

/-- The fixed entity taxonomy of the output. -/
def entityTypes : List String :=
  ["ATTENDEE", "EXHIBITOR", "SPEAKER", "SPONSOR", "VOLUNTEER"]

/-! ### Helper lemmas -/

theorem processFrom_length (qV qL : Nat) (rows : List Row) :
    ∀ idx, (processFrom qV qL idx rows).length = rows.length := by
  induction rows with
  | nil => intro idx; rfl
  | cons r t ih => intro idx; simp [processFrom, ih (idx + 1)]

theorem processFrom_get (qV qL : Nat) (rows : List Row) :
    ∀ idx i, (processFrom qV qL idx rows)[i]? =
      (rows[i]?).map (fun r => processAttendee qV qL (idx + i) r) := by
  induction rows with
  | nil => intro idx i; simp [processFrom]
  | cons r t ih =>
    intro idx i
    cases i with
    | zero => simp [processFrom]
    | succ j =>
      have h2 : idx + 1 + j = idx + (j + 1) := by omega
      simp [processFrom, ih (idx + 1) j, h2]

theorem length_filter_split_left {α : Type} (l : List α) (p q : α → Bool) :
    (l.filter p).length =
      (l.filter (fun a => p a && q a)).length +
        (l.filter (fun a => p a && !q a)).length := by
  induction l with
  | nil => rfl
  | cons a t ih =>
    cases hpa : p a <;> cases hqa : q a <;>
      simp [List.filter_cons, hpa, hqa, ih] <;> omega

theorem length_filter_split_right {α : Type} (l : List α) (p q : α → Bool) :
    (l.filter p).length =
      (l.filter (fun a => q a && p a)).length +
        (l.filter (fun a => !q a && p a)).length := by
  induction l with
  | nil => rfl
  | cons a t ih =>
    cases hpa : p a <;> cases hqa : q a <;>
      simp [List.filter_cons, hpa, hqa, ih] <;> omega

theorem lookup_getD_mem (l : List (String × String)) (k d : String) (S : List String)
    (hl : ∀ p ∈ l, p.2 ∈ S) (hd : d ∈ S) : ((l.lookup k).getD d) ∈ S := by
  induction l with
  | nil => simpa [List.lookup] using hd
  | cons p t ih =>
    obtain ⟨k1, v1⟩ := p
    by_cases hk : (k == k1) = true
    · simpa [List.lookup, hk] using hl ⟨k1, v1⟩ (by simp)
    · simp only [List.lookup, hk, Bool.false_eq_true, if_false]
      exact ih (fun q hq => hl q (by simp [hq]))

theorem mapEntityType_mem (t : Option String) : mapEntityType t ∈ entityTypes := by
  cases t with
  | none => simp [mapEntityType, entityTypes]
  | some s =>
    unfold mapEntityType
    exact lookup_getD_mem _ _ _ _ (by decide) (by decide)

theorem processFrom_entity (qV qL : Nat) (rows : List Row) :
    ∀ idx out, out ∈ processFrom qV qL idx rows →
      ∃ r, r ∈ rows ∧ out.entityType = mapEntityType r.ticketType := by
  induction rows with
  | nil => intro idx out h; simp [processFrom] at h
  | cons r t ih =>
    intro idx out h
    simp only [processFrom, List.mem_cons] at h
    rcases h with h | h
    · exact ⟨r, by simp, by rw [h]; rfl⟩
    · obtain ⟨r2, hr2, he⟩ := ih (idx + 1) out h
      exact ⟨r2, by simp [hr2], he⟩

theorem processGroup_entity (g : List Row) (out : OutputRow) (h : out ∈ processGroup g) :
    ∃ r, r ∈ g ∧ out.entityType = mapEntityType r.ticketType := by
  cases g with
  | nil => simp [processGroup] at h
  | cons first rest =>
    simp only [processGroup] at h
    exact processFrom_entity _ _ _ 0 out h

theorem processRows_entity (rows : List Row) (out : OutputRow)
    (h : out ∈ processRows rows) :
    ∃ r : Row, out.entityType = mapEntityType r.ticketType := by
  unfold processRows at h
  simp only [List.mem_flatten, List.mem_map] at h
  obtain ⟨l, ⟨k, hk, hl⟩, hmem⟩ := h
  rw [← hl] at hmem
  obtain ⟨r, _, he⟩ := processGroup_entity _ _ hmem
  exact ⟨r, he⟩

theorem dropIncomplete_cons_of_incomplete (r : Row) (rows : List Row)
    (h : criticalComplete r = false) :
    dropIncomplete (r :: rows) = dropIncomplete rows := by
  simp [dropIncomplete, List.filter_cons, h]

theorem leadDigits_of_split (d rest : List Char) (hdig : ∀ c ∈ d, c.isDigit = true)
    (hrest : ∀ c, rest.head? = some c → c.isDigit = false) :
    leadDigits (d ++ rest) = d := by
  induction d with
  | nil =>
    cases rest with
    | nil => rfl
    | cons c r => simp [leadDigits, hrest c rfl]
  | cons c ds ih =>
    have hc : c.isDigit = true := hdig c (by simp)
    have ih2 := ih (fun x hx => hdig x (by simp [hx]))
    simp [leadDigits, hc, ih2]

theorem checkVipCells_cases (cells : List (Option String)) :
    checkVipCells cells = "VIP" ∨ checkVipCells cells = "" := by
  induction cells with
  | nil => right; rfl
  | cons c rest ih =>
    cases c with
    | none => simpa [checkVipCells] using ih
    | some s =>
      by_cases hneg : vipNegative s
      · simpa [checkVipCells, hneg] using ih
      · by_cases hpos : vipPositive s
        · left; simp [checkVipCells, hneg, hpos]
        · simpa [checkVipCells, hneg, hpos] using ih

/-! ### Claim theorems -/

/-- C1 (counterexample): in a buyer group of 3 rows whose first row carries a
guest lunch quantity of 2, the attendee at group index 2 still receives the
Lunch flag when its own `Lunch (Included)` column is positive — all three
output rows carry Lunch — contradicting the claim that index 2 does not
receive Lunch regardless of its own column values. -/
theorem c1_index_two_own_columns_cex :
    extractQuantityFromString c1r0.guestLunchTicket = 2 ∧
    checkLunchStatus c1r2 = "LUNCH" ∧
    lunchFlags (processGroup [c1r0, c1r1, c1r2]) = ["LUNCH", "LUNCH", "LUNCH"] := by
  decide

/-- C1 (amended): in a buyer group of 3 attendee rows with guestLunchQty = 2
read from the buyer's first row, the attendees at indices 0 and 1 receive the
guest-pool Lunch allocation regardless of any individual column values, and
the attendee at index 2 receives no pool allocation: its Lunch flag is
determined solely by its own row through the entitlement resolver. -/
theorem c1_guest_lunch_distribution (r0 r1 r2 : Row)
    (h : extractQuantityFromString r0.guestLunchTicket = 2) :
    lunchFlags (processGroup [r0, r1, r2]) =
      ["LUNCH", "LUNCH", checkLunchStatus r2] := by
  simp [processGroup, processFrom, processAttendee, lunchFlags, h]

/-- C1 witness: the amended distribution evaluated on a concrete group. -/
theorem c1_guest_lunch_distribution_witness :
    lunchFlags (processGroup [c1r0, blankRow, blankRow]) =
      ["LUNCH", "LUNCH", checkLunchStatus blankRow] :=
  c1_guest_lunch_distribution c1r0 blankRow blankRow (by decide)

/-- C2 (counterexample): a column value containing `no lunch` does not
short-circuit the resolver; with `Lunch (Included) = No Lunch` and a positive
lower-priority `Guest Lunch Ticket`, the row still resolves to Lunch,
contradicting the claim that the positive lower-priority column is never
reached. -/
theorem c2_no_lunch_not_short_circuit_cex :
    lunchNegative "No Lunch" = true ∧
    checkLunchStatus c2row = "LUNCH" := by
  decide

/-- C2 (amended): a column value containing `no lunch` never itself yields
Lunch: that column is skipped and evaluation continues with the
lower-priority columns unchanged (which may therefore still yield
Lunch=true). -/
theorem c2_no_lunch_skips_column (s : String) (rest : List (Option String))
    (h : lunchNegative s = true) :
    checkLunchCells (some s :: rest) = checkLunchCells rest := by
  simp [checkLunchCells, h]

/-- C2 witness: the skip equation at the concrete value `No Lunch`. -/
theorem c2_no_lunch_skips_column_witness :
    checkLunchCells [some "No Lunch", some "Lunch"] = checkLunchCells [some "Lunch"] :=
  c2_no_lunch_skips_column "No Lunch" [some "Lunch"] (by decide)

/-- C3: for every buyer group and index, the i-th output row's VIP flag is
forced to `VIP` exactly when `i < guestVipQty` (the guest quantity extracted
from the group's first row) and otherwise equals the per-row VIP resolver
output, and independently the Lunch flag is forced to `LUNCH` exactly when
`i < guestLunchQty` and otherwise equals the per-row Lunch resolver output. -/
theorem c3_guest_pool_priority (first : Row) (rest : List Row) (i : Nat)
    (hi : i < (first :: rest).length) :
    ∃ out : OutputRow, (processGroup (first :: rest))[i]? = some out ∧
      out.vip = (if i < extractQuantityFromString first.guestVipTicket then "VIP"
        else checkVipStatus ((first :: rest)[i])) ∧
      out.lunch = (if i < extractQuantityFromString first.guestLunchTicket then "LUNCH"
        else checkLunchStatus ((first :: rest)[i])) := by
  refine ⟨processAttendee (extractQuantityFromString first.guestVipTicket)
      (extractQuantityFromString first.guestLunchTicket) i ((first :: rest)[i]),
    ?_, ?_, ?_⟩
  · rw [show processGroup (first :: rest) =
        processFrom (extractQuantityFromString first.guestVipTicket)
          (extractQuantityFromString first.guestLunchTicket) 0 (first :: rest) from rfl]
    rw [processFrom_get]
    simp [List.getElem?_eq_getElem hi]
  · by_cases hv : i < extractQuantityFromString first.guestVipTicket
    · simp [processAttendee, hv, Nat.lt_of_le_of_lt (Nat.zero_le i) hv]
    · simp [processAttendee, hv]
  · by_cases hl : i < extractQuantityFromString first.guestLunchTicket
    · simp [processAttendee, hl, Nat.lt_of_le_of_lt (Nat.zero_le i) hl]
    · simp [processAttendee, hl]

/-- C3 witness: the allocation statement evaluated at index 0 of a concrete
group. -/
theorem c3_guest_pool_priority_witness :
    ∃ out : OutputRow, (processGroup (c1r0 :: [c1r1, c1r2]))[0]? = some out ∧
      out.vip = (if 0 < extractQuantityFromString c1r0.guestVipTicket then "VIP"
        else checkVipStatus ((c1r0 :: [c1r1, c1r2])[0])) ∧
      out.lunch = (if 0 < extractQuantityFromString c1r0.guestLunchTicket then "LUNCH"
        else checkLunchStatus ((c1r0 :: [c1r1, c1r2])[0])) :=
  c3_guest_pool_priority c1r0 [c1r1, c1r2] 0 (by decide)

/-- C4 (counterexample): the extractor strips surrounding whitespace before
matching, so the input ` 2`, whose textual form has no leading digit run,
still yields 2 rather than the 0 the claim requires. -/
theorem c4_leading_space_cex :
    leadDigits (" 2").data = [] ∧ extractQuantityFromString (some " 2") = 2 := by
  decide

/-- C4 (amended): the extractor returns 0 on a missing or empty value;
otherwise it strips surrounding whitespace from the value's textual form and
returns the integer given by the leading contiguous run of decimal digits of
the stripped text, or 0 when no such run exists; in particular the four
example inputs evaluate as the claim states. -/
theorem c4_extract_quantity (s : String) (d rest : List Char)
    (hd : d ≠ []) (hdig : ∀ c ∈ d, c.isDigit = true)
    (hrest : ∀ c, rest.head? = some c → c.isDigit = false)
    (hsplit : stripChars s.data = d ++ rest) :
    extractQuantityFromString (some s) = digitsToNat d ∧
    extractQuantityFromString none = 0 ∧
    extractQuantityFromString (some "") = 0 ∧
    (∀ t : String, leadDigits (stripChars t.data) = [] →
      extractQuantityFromString (some t) = 0) ∧
    extractQuantityFromString (some "2 \x27Lunch\x27 - Not Picked Up") = 2 ∧
    extractQuantityFromString (some "Yes") = 0 := by
  refine ⟨?_, rfl, rfl, ?_, by decide, by decide⟩
  · have hs : ¬ s = "" := by
      intro he
      subst he
      have : d ++ rest = ([] : List Char) := by
        rw [← hsplit]; rfl
      exact hd (List.append_eq_nil.mp this).1
    show (if s = "" then 0
      else match leadDigits (stripChars s.data) with
        | [] => 0
        | ds => digitsToNat ds) = digitsToNat d
    rw [if_neg hs, hsplit, leadDigits_of_split d rest hdig hrest]
    cases d with
    | nil => exact absurd rfl hd
    | cons c ds => rfl
  · intro t ht
    show (if t = "" then 0
      else match leadDigits (stripChars t.data) with
        | [] => 0
        | ds => digitsToNat ds) = 0
    by_cases he : t = ""
    · rw [if_pos he]
    · rw [if_neg he, ht]

/-- C4 witness: the characterization applied to the first example input. -/
theorem c4_extract_quantity_witness :
    extractQuantityFromString (some "2 \x27Lunch\x27 - Not Picked Up") =
      digitsToNat [Char.ofNat 50] :=
  (c4_extract_quantity "2 \x27Lunch\x27 - Not Picked Up" [Char.ofNat 50]
    (" \x27Lunch\x27 - Not Picked Up").data
    (by decide) (by decide)
    (by
      intro c hc
      have h0 : (" \x27Lunch\x27 - Not Picked Up").data.head? = some ' ' := rfl
      rw [h0] at hc
      injection hc with h2
      rw [← h2]
      decide)
    (by decide)).1

/-- C5: the VIP resolver walks the VIP columns in priority order; a missing
column is skipped, a present column whose lowercased text contains the
quoted token (quote, n, o, quote) is skipped as negative, and otherwise the
column yields VIP exactly when it is positive (lowercased text contains
`yes`, or the extracted quantity is positive) or a later column yields VIP;
when no column yields a positive the flag is the empty string; the bare
letters `no` without quotes are not a negative marker. -/
theorem c5_vip_resolver (s : String) (rest : List (Option String))
    (hneg : vipNegative s = false) :
    (checkVipCells (some s :: rest) = "VIP" ↔
      vipPositive s = true ∨ checkVipCells rest = "VIP") ∧
    (∀ t u, vipNegative t = true → checkVipCells (some t :: u) = checkVipCells u) ∧
    (∀ u, checkVipCells (none :: u) = checkVipCells u) ∧
    checkVipCells [] = "" ∧
    (∀ cells, checkVipCells cells = "VIP" ∨ checkVipCells cells = "") ∧
    vipNegative "no" = false ∧
    vipNegative "\x22no\x22" = true ∧
    (∀ row : Row, checkVipStatus row =
      checkVipCells [row.vipIncluded, row.guestVipTicket, row.purchaseVip]) := by
  refine ⟨?_, ?_, ?_, rfl, checkVipCells_cases, by decide, by decide, fun row => rfl⟩
  · by_cases hpos : vipPositive s
    · simp [checkVipCells, hneg, hpos]
    · simp [checkVipCells, hneg, hpos]
  · intro t u ht
    simp [checkVipCells, ht]
  · intro u
    simp [checkVipCells]

/-- C5 witness: the resolver equations at a concrete positive quantity
value. -/
theorem c5_vip_resolver_witness :
    checkVipCells [some "1 \x22Yes\x22 - Not Picked Up"] = "VIP" ↔
      vipPositive "1 \x22Yes\x22 - Not Picked Up" = true ∨
        checkVipCells [] = "VIP" :=
  (c5_vip_resolver "1 \x22Yes\x22 - Not Picked Up" [] (by decide)).1

/-- C6 (counterexample): the ticket-type name ` Speaker ` is absent from the
lookup table, yet the lenient classifier does not default it to ATTENDEE:
the name is stripped before the lookup and classifies as SPEAKER,
contradicting the claim that a name absent from the table is classified as
ATTENDEE. -/
theorem c6_unmapped_name_cex :
    TICKET_TYPE_MAPPING.lookup " Speaker " = none ∧
    mapEntityType (some " Speaker ") ≠ "ATTENDEE" := by
  decide

/-- C6 (amended): every output row of the spreadsheet pipeline carries an
entity type from the fixed five-value taxonomy; a missing ticket-type value
maps to ATTENDEE, and a ticket name whose whitespace-stripped form is absent
from the lookup table maps to ATTENDEE. -/
theorem c6_entity_type_total (rows : List Row) (out : OutputRow)
    (hmem : out ∈ processRows rows) :
    out.entityType ∈ entityTypes ∧
    mapEntityType none = "ATTENDEE" ∧
    (∀ s, TICKET_TYPE_MAPPING.lookup (String.mk (stripChars s.data)) = none →
      mapEntityType (some s) = "ATTENDEE") := by
  refine ⟨?_, rfl, ?_⟩
  · obtain ⟨r, he⟩ := processRows_entity rows out hmem
    rw [he]
    exact mapEntityType_mem _
  · intro s h
    simp [mapEntityType, h]

/-- C6 witness: the taxonomy membership evaluated on a concrete processed
roster. -/
theorem c6_entity_type_total_witness :
    outBlank.entityType ∈ entityTypes :=
  (c6_entity_type_total [blankRow] outBlank (by decide)).1

/-- C7 (counterexample): the ticket name ` Speaker ` is not a key of the
lookup table, yet it is classified as SPEAKER, identically to `Speaker`: the
classifier strips surrounding whitespace before the lookup, so two names
differing only in surrounding whitespace are not different keys. -/
theorem c7_trim_cex :
    TICKET_TYPE_MAPPING.lookup " Speaker " = none ∧
    mapEntityType (some " Speaker ") = "SPEAKER" ∧
    mapEntityType (some "Speaker") = "SPEAKER" := by
  decide

/-- C7 (amended): entity classification looks the ticket name up
case-sensitively and without normalization except that surrounding
whitespace is stripped first: names with equal stripped forms classify
identically, while a case change alone falls back to ATTENDEE. -/
theorem c7_entity_lookup (s t : String)
    (h : stripChars s.data = stripChars t.data) :
    mapEntityType (some s) = mapEntityType (some t) ∧
    mapEntityType (some "speaker") = "ATTENDEE" ∧
    mapEntityType (some "SPEAKER") = "ATTENDEE" ∧
    mapEntityType (some "Speaker") = "SPEAKER" :=
  ⟨by simp [mapEntityType, h], by decide, by decide, by decide⟩

/-- C7 witness: the stripped-form equivalence at a concrete padded name. -/
theorem c7_entity_lookup_witness :
    mapEntityType (some " Speaker ") = mapEntityType (some "Speaker") :=
  (c7_entity_lookup " Speaker " "Speaker" (by decide)).1

/-- C8: spreadsheet processing fails exactly when the required columns are
missing from both candidate header rows (row 1 and row 3, 0-indexed 0 and
2); the raised error names exactly the required columns absent from the
second candidate header; and a row missing buyer email, attendee email or an
attendee name is silently dropped before grouping, never causing an error. -/
theorem c8_header_policy (h0 h2 : List String) (rows0 rows2 : List Row) :
    ((∃ e, processRegistrationData h0 rows0 h2 rows2 = .error e) ↔
      (missingColumns h0 ≠ [] ∧ missingColumns h2 ≠ [])) ∧
    (∀ e, processRegistrationData h0 rows0 h2 rows2 = .error e →
      e = missingColumns h2 ∧ ∀ c ∈ e, c ∈ requiredColumns ∧ h2.contains c = false) ∧
    (∀ r rows, criticalComplete r = false →
      processRows (r :: rows) = processRows rows) := by
  refine ⟨?_, ?_, ?_⟩
  · unfold processRegistrationData
    by_cases hm0 : missingColumns h0 = []
    · simp [hm0]
    · by_cases hm2 : missingColumns h2 = []
      · simp [hm0, hm2]
      · simp [hm0, hm2]
  · intro e he
    unfold processRegistrationData at he
    by_cases hm0 : missingColumns h0 = [] <;>
      by_cases hm2 : missingColumns h2 = [] <;>
      simp [hm0, hm2] at he
    refine ⟨he.symm, ?_⟩
    intro c hc
    rw [he.symm] at hc
    have hmf := List.mem_filter.mp hc
    exact ⟨hmf.1, by simpa using hmf.2⟩
  · intro r rows hcrit
    unfold processRows
    rw [dropIncomplete_cons_of_incomplete r rows hcrit]

/-- C8 witness: a row with a missing buyer email is dropped without
affecting the output. -/
theorem c8_header_policy_witness :
    processRows [incompleteRow] = processRows [] :=
  (c8_header_policy [] [] [] []).2.2 incompleteRow [] (by decide)

/-- C9 (counterexample): on a roster with one row of each VIP/Lunch
combination, the count of rows with (VIP OR Lunch) true is 3, yet no field
of the summary equals 3: the summary holds the six fields listed (plus the
entity histogram) and no explicit OR-count. -/
theorem c9_or_count_cex :
    vipOrLunchCount rosterC9 = 3 ∧
    (calculateSummary rosterC9).map Prod.fst =
      ["total_attendees", "vip_count", "lunch_count", "vip_and_lunch_count",
       "vip_only", "lunch_only"] ∧
    (calculateSummary rosterC9).map Prod.snd = [4, 2, 2, 1, 1, 1] ∧
    (3 : Nat) ∉ [4, 2, 2, 1, 1, 1] ∧
    entityBreakdown rosterC9 = [("ATTENDEE", 4)] := by
  decide

/-- C9 (amended): the spreadsheet summary, computed from the processed
roster only, carries the total, the VIP count, the Lunch count, the
both-true count, the VIP-only/Lunch-only breakdown and the entity-type
histogram; it carries no explicit (VIP OR Lunch) count field (the UI shows
`vip_only + lunch_only`, the exactly-one count, under that label). -/
theorem c9_summary_fields (df : List OutputRow) :
    (calculateSummary df).lookup "total_attendees" = some df.length ∧
    (calculateSummary df).lookup "vip_count" = some (df.filter vipTrue).length ∧
    (calculateSummary df).lookup "lunch_count" = some (df.filter lunchTrue).length ∧
    (calculateSummary df).lookup "vip_and_lunch_count" =
      some (df.filter (fun r => vipTrue r && lunchTrue r)).length ∧
    (calculateSummary df).lookup "vip_only" =
      some (df.filter (fun r => vipTrue r && !lunchTrue r)).length ∧
    (calculateSummary df).lookup "lunch_only" =
      some (df.filter (fun r => !vipTrue r && lunchTrue r)).length ∧
    (calculateSummary df).lookup "vip_or_lunch_count" = none ∧
    (∀ t cnt, (t, cnt) ∈ entityBreakdown df →
      cnt = (df.filter (fun r => r.entityType == t)).length) ∧
    (∀ r ∈ df, ∃ cnt, (r.entityType, cnt) ∈ entityBreakdown df) := by
  refine ⟨rfl, rfl, rfl, rfl, rfl, rfl, rfl, ?_, ?_⟩
  · intro t cnt hmem
    simp only [entityBreakdown, List.mem_map] at hmem
    obtain ⟨t2, ht2, heq⟩ := hmem
    injection heq with h1 h2
    subst h1
    exact h2.symm
  · intro r hr
    refine ⟨(df.filter (fun x => x.entityType == r.entityType)).length, ?_⟩
    simp only [entityBreakdown, List.mem_map]
    refine ⟨r.entityType, ?_, rfl⟩
    rw [List.mem_dedup, List.mem_map]
    exact ⟨r, hr, rfl⟩

/-- C9 witness: the absent OR-count field on a concrete roster. -/
theorem c9_summary_fields_witness :
    (calculateSummary rosterC9).lookup "vip_or_lunch_count" = none :=
  (c9_summary_fields rosterC9).2.2.2.2.2.2.1

/-- C10: the summary fields satisfy vip_count = vip_only +
vip_and_lunch_count and lunch_count = lunch_only + vip_and_lunch_count, and
vip_and_lunch_count ≤ min vip_count lunch_count ≤ total_attendees. -/
theorem c10_summary_identities (df : List OutputRow) (tot vc lc bc vo lo : Nat)
    (htot : (calculateSummary df).lookup "total_attendees" = some tot)
    (hvc : (calculateSummary df).lookup "vip_count" = some vc)
    (hlc : (calculateSummary df).lookup "lunch_count" = some lc)
    (hbc : (calculateSummary df).lookup "vip_and_lunch_count" = some bc)
    (hvo : (calculateSummary df).lookup "vip_only" = some vo)
    (hlo : (calculateSummary df).lookup "lunch_only" = some lo) :
    vc = vo + bc ∧ lc = lo + bc ∧ bc ≤ min vc lc ∧ min vc lc ≤ tot := by
  have etot : df.length = tot := Option.some.inj htot
  have evc : (df.filter vipTrue).length = vc := Option.some.inj hvc
  have elc : (df.filter lunchTrue).length = lc := Option.some.inj hlc
  have ebc : (df.filter (fun r => vipTrue r && lunchTrue r)).length = bc :=
    Option.some.inj hbc
  have evo : (df.filter (fun r => vipTrue r && !lunchTrue r)).length = vo :=
    Option.some.inj hvo
  have elo : (df.filter (fun r => !vipTrue r && lunchTrue r)).length = lo :=
    Option.some.inj hlo
  have h1 := length_filter_split_left df vipTrue lunchTrue
  have h2 := length_filter_split_right df lunchTrue vipTrue
  have h3 := List.length_filter_le vipTrue df
  have h4 := List.length_filter_le lunchTrue df
  have hvcs : vc = vo + bc := by omega
  have hlcs : lc = lo + bc := by omega
  refine ⟨hvcs, hlcs, ?_, ?_⟩
  · exact le_min (by omega) (by omega)
  · exact le_trans (min_le_left _ _) (by omega)

/-- C10 witness: the identities evaluated on a concrete roster. -/
theorem c10_summary_identities_witness :
    (2 : Nat) = 1 + 1 ∧ (1 : Nat) = 0 + 1 ∧ (1 : Nat) ≤ min 2 1 ∧ min 2 1 ≤ 2 :=
  c10_summary_identities rosterC10 2 2 1 1 1 0 rfl rfl rfl rfl rfl rfl

end Conphere
